import Mathlib

/-!
Shallow embedding of the data-synchronization and normalization pipeline of
`lidar_point_CNN_SVM_training.py` (the single source file of the repository
`rabbidknight/lidar-point_estimation_SLFN`), together with theorems settling
the specification claims about it.

Modelling conventions:
* point-cloud raw data (`np.frombuffer(msg.data, dtype=np.uint8)`) is a
  `List Nat` of byte values;
* pose scalars are modelled symbolically by `PVal`, which distinguishes
  ordinary numbers from the not-a-number sentinel `np.nan` (no floating-point
  arithmetic is ever performed on pose values by the code under study: they
  are only stored, repeated and reshaped);
* 2-D numpy arrays are lists of rows; `reshape(-1, k)` is chunking of the
  flattened element list into rows of `k`;
* fallible code (a Python statement that can raise) returns
  `Except String`, the error string being the message of the exception;
* Python `dict`s keyed by message sequence number are association lists in
  insertion (arrival) order with distinct keys, and `x in d` / `d[x]` is
  `List.lookup`.
-/

/-- Scalar value of a pose entry: an ordinary number or the `np.nan` sentinel. -/
inductive PVal where
  | num : Rat → PVal
  | nan : PVal
deriving DecidableEq

/-- The sentinel pose `[np.nan]*7` appended when no pose matches
(line 87 of the source). -/
def sentinelPose : List PVal := List.replicate 7 PVal.nan

/-- The synchronization loop of `extract_data_from_bag` (source lines 76-87):
iterate the point-cloud dict in arrival order; for each record with sequence
number `seq`, look up the pose dict at `seq + seq_offset`; append the matched
pose if present, the sentinel pose otherwise.  The point-cloud dict is the
association list `point_cloud_data`, the pose dict `lidar_transform_data`. -/
def syncPointCloudsAndPoses (point_cloud_data : List (Int × List Nat))
    (lidar_transform_data : List (Int × List PVal)) (seq_offset : Int) :
    List (List Nat) × List (List PVal) :=
  match point_cloud_data with
  | [] => ([], [])
  | (seq, cloud) :: rest =>
    let r := syncPointCloudsAndPoses rest lidar_transform_data seq_offset
    match List.lookup (seq + seq_offset) lidar_transform_data with
    | some pose => (cloud :: r.1, pose :: r.2)
    | none => (cloud :: r.1, sentinelPose :: r.2)

/-- Python `(-n) % 3`: number of zero bytes needed to make a length
divisible by 3 (source line 161). -/
def neededPadding3 (n : Nat) : Nat := (3 - n % 3) % 3

/-- Step-1 padding of `plot3d_point_clouds` (source lines 161-163):
`np.pad(cloud, (0, needed_padding), mode='constant')` appends
`needed_padding` zeros. -/
def padCloud (cloud : List Nat) : List Nat :=
  cloud ++ List.replicate (neededPadding3 cloud.length) 0

/-- Numpy `reshape(-1, 3)` on a flat list: rows of three consecutive
elements.  The code only ever applies it to lists whose length is divisible
by 3 (it checks first); the catch-all rows for leftovers are unreachable
there. -/
def chunks3 : List α → List (List α)
  | [] => []
  | [a] => [[a]]
  | [a, b] => [[a, b]]
  | a :: b :: c :: rest => [a, b, c] :: chunks3 rest

/-- Numpy `reshape(-1, 7)` on a flat list: rows of seven consecutive
elements (same leftover convention as `chunks3`, likewise only applied
after a divisibility-by-7 test). -/
def chunks7 : List α → List (List α)
  | [] => []
  | [a] => [[a]]
  | [a, b] => [[a, b]]
  | [a, b, c] => [[a, b, c]]
  | [a, b, c, d] => [[a, b, c, d]]
  | [a, b, c, d, e] => [[a, b, c, d, e]]
  | [a, b, c, d, e, f] => [[a, b, c, d, e, f]]
  | a :: b :: c :: d :: e :: f :: g :: rest => [a, b, c, d, e, f, g] :: chunks7 rest

/-- The reshaping loop of `plot3d_point_clouds` (source lines 157-169, the
plotting block in the middle is commented out in the source): pad each cloud
to a length divisible by 3, raise
`ValueError("The total number of elements in the list must be divisible by 3.")`
if the padded length is still not divisible by 3, else reshape to rows of 3.
The `lidar_poses` argument is only used by the commented-out plotting code. -/
def plot3d_point_clouds (point_clouds : List (List Nat))
    (lidar_poses : List (List PVal)) : Except String (List (List (List Nat))) :=
  match point_clouds with
  | [] => Except.ok []
  | cloud :: rest =>
    let padded := padCloud cloud
    if padded.length % 3 ≠ 0 then
      Except.error "The total number of elements in the list must be divisible by 3."
    else
      match plot3d_point_clouds rest lidar_poses with
      | Except.error e => Except.error e
      | Except.ok rs => Except.ok (chunks3 padded :: rs)

/-- Python `min` over a list: `none` on the empty list, where CPython raises
`ValueError: min() arg is an empty sequence`. -/
def pyMin : List Nat → Option Nat
  | [] => none
  | x :: xs => some (xs.foldl Nat.min x)

/-- Source line 254:
`min_length = min(len(pc) for pc in point_clouds if len(pc) % 3 == 0)` —
the minimum length among the input clouds whose length is divisible by 3.
In the pipeline the inputs are the already-reshaped clouds returned by
`plot3d_point_clouds`, so `len(pc)` is a row count. -/
def refLength (point_clouds : List (List (List Nat))) : Option Nat :=
  pyMin ((point_clouds.filter (fun pc => pc.length % 3 == 0)).map List.length)

/-- Python `(-n) % 7` as computed on source line 267. -/
def neededPadding7 (n : Nat) : Nat := (7 - n % 7) % 7

/-- Numpy `reshape(-1, 7)` on a 2-D array, with numpy's divisibility
requirement made explicit. -/
def npReshape7 (rows : List (List PVal)) : Except String (List (List PVal)) :=
  if rows.flatten.length % 7 == 0 then Except.ok (chunks7 rows.flatten)
  else Except.error "cannot reshape array"

/-- Pose expansion of `adjust_point_cloud_lengths` (source lines 263-273) for
a pose that is a list of scalars: `np.repeat([pose], min_length, axis=0)`
yields `min_length` copies of the row; `total_elements` is its `.size`;
if `(-total_elements) % 7` is positive each row is padded on the right with
that many `np.nan` before `reshape(-1, 7)`, else the repetition is reshaped
directly. -/
def expandPose (pose : List PVal) (min_length : Nat) :
    Except String (List (List PVal)) :=
  let repeated_pose := List.replicate min_length pose
  let total_elements := min_length * pose.length
  let needed_padding := neededPadding7 total_elements
  if needed_padding > 0 then
    npReshape7 (repeated_pose.map (fun r => r ++ List.replicate needed_padding PVal.nan))
  else
    npReshape7 repeated_pose

/-- The per-pair loop of `adjust_point_cloud_lengths` (source lines 260-274):
keep a pair only when `min_length <= len(pc)`, truncating the cloud to
`min_length` rows and expanding its pose; an exception inside the loop
propagates out. -/
def adjustLoop (min_length : Nat) :
    List (List (List Nat) × List PVal) →
    Except String (List (List (List Nat)) × List (List (List PVal)))
  | [] => Except.ok ([], [])
  | (pc, pose) :: rest =>
    if min_length ≤ pc.length then
      match expandPose pose min_length with
      | Except.error e => Except.error e
      | Except.ok ep =>
        match adjustLoop min_length rest with
        | Except.error e => Except.error e
        | Except.ok r => Except.ok (pc.take min_length :: r.1, ep :: r.2)
    else adjustLoop min_length rest

/-- `adjust_point_cloud_lengths` (source lines 252-276) instantiated at the
types of its arguments when the poses are a list of pose rows: compute the
reference minimum length (raising CPython's empty-`min` error when no cloud
qualifies), then run the filtering/truncation/expansion loop over
`zip(point_clouds, lidar_poses)`. -/
def adjust_point_cloud_lengths (point_clouds : List (List (List Nat)))
    (lidar_poses : List (List PVal)) :
    Except String (List (List (List Nat)) × List (List (List PVal))) :=
  match refLength point_clouds with
  | none => Except.error "min() arg is an empty sequence"
  | some min_length => adjustLoop min_length (point_clouds.zip lidar_poses)

/-- A pandas `DataFrame`: column labels plus rows of values. -/
structure DataFrame where
  columns : List String
  values : List (List PVal)
deriving DecidableEq

/-- The column labels of the pose table built on source line 114. -/
def poseColumns : List String :=
  ["pos_x", "pos_y", "pos_z", "ori_x", "ori_y", "ori_z", "ori_w"]

/-- `pd.DataFrame(synced_poses, columns=[...])` of source line 114. -/
def pdDataFramePoses (rows : List (List PVal)) : DataFrame :=
  { columns := poseColumns, values := rows }

/-- Iterating a pandas `DataFrame` (as `zip` does) yields its column labels,
not its rows. -/
def dfIter (df : DataFrame) : List String := df.columns

/-- Pose expansion of `adjust_point_cloud_lengths` when the "pose" bound by
the loop is a column-label string: `np.repeat(['label'], min_length, axis=0)`
is the 1-D array of `min_length` copies, whose `.size` is `min_length`;
when the needed padding is positive, `np.pad` with a two-axis pad width on a
1-D array raises; otherwise `reshape(-1, 7)` applies (numpy checking
divisibility). -/
def expandLabel (label : String) (min_length : Nat) :
    Except String (List (List String)) :=
  let repeated_pose := List.replicate min_length label
  let needed_padding := neededPadding7 repeated_pose.length
  if needed_padding > 0 then
    Except.error "pad width must match the number of array dimensions"
  else if repeated_pose.length % 7 == 0 then Except.ok (chunks7 repeated_pose)
  else Except.error "cannot reshape array"

/-- The loop of `adjust_point_cloud_lengths` as executed on the arguments it
actually receives from `extract_data_from_bag`: the poses are a `DataFrame`,
so the loop variable `pose` ranges over column-label strings. -/
def adjustLoopOnColumns (min_length : Nat) :
    List (List (List Nat) × String) →
    Except String (List (List (List Nat)) × List (List (List String)))
  | [] => Except.ok ([], [])
  | (pc, label) :: rest =>
    if min_length ≤ pc.length then
      match expandLabel label min_length with
      | Except.error e => Except.error e
      | Except.ok ep =>
        match adjustLoopOnColumns min_length rest with
        | Except.error e => Except.error e
        | Except.ok r => Except.ok (pc.take min_length :: r.1, ep :: r.2)
    else adjustLoopOnColumns min_length rest

/-- `adjust_point_cloud_lengths` instantiated at the call site of
`extract_and_adjust_data` (source line 282), where `lidar_poses` is the
`DataFrame` returned by `extract_data_from_bag`: `zip` pairs each cloud with
a column label. -/
def adjust_point_cloud_lengths_df (point_clouds : List (List (List Nat)))
    (lidar_poses : DataFrame) :
    Except String (List (List (List Nat)) × List (List (List String))) :=
  match refLength point_clouds with
  | none => Except.error "min() arg is an empty sequence"
  | some min_length =>
    adjustLoopOnColumns min_length (point_clouds.zip (dfIter lidar_poses))

/-- `extract_data_from_bag` from the synchronization step on (source lines
76-114): synchronize the two streams, reshape the synced clouds through
`plot3d_point_clouds`, and return them with the pose `DataFrame`. -/
def extract_data_from_bag (point_cloud_data : List (Int × List Nat))
    (lidar_transform_data : List (Int × List PVal)) (seq_offset : Int) :
    Except String (List (List (List Nat)) × DataFrame) :=
  let synced := syncPointCloudsAndPoses point_cloud_data lidar_transform_data seq_offset
  match plot3d_point_clouds synced.1 synced.2 with
  | Except.error e => Except.error e
  | Except.ok reshaped => Except.ok (reshaped, pdDataFramePoses synced.2)

/-- The reference minimum length as the full pipeline computes it: the raw
clouds are first padded and reshaped by `plot3d_point_clouds`, and
`adjust_point_cloud_lengths` then takes its minimum over the reshaped
clouds. -/
def pipelineRefLength (raw_clouds : List (List Nat)) : Option Nat :=
  refLength (raw_clouds.map (fun c => chunks3 (padCloud c)))

/-- Modelled from the spec's words, for comparison with the source
(`pipelineRefLength`): "the minimum row-count among clouds whose raw length
was already divisible by 3 (clouds that needed padding in step 1 are
excluded from this minimum computation)". -/
def specRefLength (raw_clouds : List (List Nat)) : Option Nat :=
  pyMin ((raw_clouds.filter (fun c => c.length % 3 == 0)).map
    (fun c => (chunks3 (padCloud c)).length))

/-- `pc.reshape(-1, 3)` of `prepare_data_for_training` (source line 287). -/
def reshape3 (rows : List (List PVal)) : List (List PVal) :=
  chunks3 rows.flatten

/-- `np.concatenate([a, b], axis=1)` on two 2-D arrays with equal row counts:
row-wise concatenation (numpy raises when the row counts differ; the code
only reaches it with equal row counts). -/
def npConcatColumns (a b : List (List PVal)) : List (List PVal) :=
  List.zipWith (fun r s => r ++ s) a b

/-- `prepare_data_for_training` (source lines 285-289): per sample,
concatenate the reshaped cloud with its expanded pose column-wise, then
`np.vstack` all the per-sample row blocks into one table. -/
def prepare_data_for_training (point_clouds : List (List (List PVal)))
    (lidar_poses : List (List (List PVal))) : List (List PVal) :=
  ((point_clouds.zip lidar_poses).map
    (fun q => npConcatColumns (reshape3 q.1) q.2)).flatten

/-- `input_data.shape[1]` as used on source line 305 to size the model
input: the width of the first row of the stacked table. -/
def inputFeatureWidth (input_data : List (List PVal)) : Nat :=
  (input_data.headI).length

/-! ### Helper lemmas -/

theorem padCloud_length (c : List Nat) :
    (padCloud c).length = c.length + neededPadding3 c.length := by
  simp [padCloud]

theorem padCloud_length_mod3 (c : List Nat) : (padCloud c).length % 3 = 0 := by
  rw [padCloud_length]; unfold neededPadding3; omega

theorem padCloud_noop (c : List Nat) (h : c.length % 3 = 0) : padCloud c = c := by
  simp [padCloud, neededPadding3, h]

theorem chunks3_length_mul {α : Type _} :
    ∀ (k : Nat) (l : List α), l.length = 3 * k → (chunks3 l).length = k := by
  intro k
  induction k with
  | zero =>
    intro l h
    rcases l with _ | ⟨a, l⟩
    · rfl
    · simp at h
  | succ k ih =>
    intro l h
    rcases l with _ | ⟨a, _ | ⟨b, _ | ⟨c, rest⟩⟩⟩
    · simp at h
    · simp only [List.length_cons, List.length_nil] at h; omega
    · simp only [List.length_cons, List.length_nil] at h; omega
    · have hr : rest.length = 3 * k := by
        simp only [List.length_cons] at h; omega
      simp [chunks3, ih rest hr]

theorem chunks3_padCloud_length (c : List Nat) :
    (chunks3 (padCloud c)).length = (c.length + 2) / 3 := by
  have h3 : (padCloud c).length = 3 * ((c.length + 2) / 3) := by
    rw [padCloud_length]; unfold neededPadding3; omega
  exact chunks3_length_mul _ _ h3

theorem chunks3_append_of_length_three {α : Type _} (p l : List α)
    (hp : p.length = 3) : chunks3 (p ++ l) = p :: chunks3 l := by
  rcases p with _ | ⟨a, _ | ⟨b, _ | ⟨c, _ | ⟨d, q⟩⟩⟩⟩
  · simp at hp
  · simp only [List.length_cons, List.length_nil] at hp; omega
  · simp only [List.length_cons, List.length_nil] at hp; omega
  · cases l with
    | nil => rfl
    | cons x xs => rfl
  · simp only [List.length_cons] at hp; omega

theorem chunks3_flatten_of_rows3 {α : Type _} :
    ∀ (rows : List (List α)), (∀ r ∈ rows, r.length = 3) →
      chunks3 rows.flatten = rows := by
  intro rows
  induction rows with
  | nil => intro _; rfl
  | cons r rest ih =>
    intro h
    rw [List.flatten_cons, chunks3_append_of_length_three r _ (h r (by simp)),
      ih (fun s hs => h s (by simp [hs]))]

theorem chunks7_append_of_length_seven {α : Type _} (p l : List α)
    (hp : p.length = 7) : chunks7 (p ++ l) = p :: chunks7 l := by
  rcases p with _ | ⟨a, _ | ⟨b, _ | ⟨c, _ | ⟨d, _ | ⟨e, _ | ⟨f, _ | ⟨g, _ | ⟨k, q⟩⟩⟩⟩⟩⟩⟩⟩
  · simp at hp
  · simp only [List.length_cons, List.length_nil] at hp; omega
  · simp only [List.length_cons, List.length_nil] at hp; omega
  · simp only [List.length_cons, List.length_nil] at hp; omega
  · simp only [List.length_cons, List.length_nil] at hp; omega
  · simp only [List.length_cons, List.length_nil] at hp; omega
  · simp only [List.length_cons, List.length_nil] at hp; omega
  · cases l with
    | nil => rfl
    | cons x xs => rfl
  · simp only [List.length_cons] at hp; omega

theorem chunks7_flatten_replicate {α : Type _} (m : Nat) (p : List α)
    (hp : p.length = 7) :
    chunks7 ((List.replicate m p).flatten) = List.replicate m p := by
  induction m with
  | zero => rfl
  | succ m ih =>
    rw [List.replicate_succ, List.flatten_cons,
      chunks7_append_of_length_seven p _ hp, ih]

theorem flatten_replicate_length {α : Type _} (m : Nat) (p : List α) :
    (List.replicate m p).flatten.length = m * p.length := by
  induction m with
  | zero => simp
  | succ m ih =>
    rw [List.replicate_succ, List.flatten_cons, List.length_append, ih]
    ring

/-! ### Claim theorems -/

/-- C7: for every point cloud, step 1 pads the raw value sequence with
zeros so that its length becomes divisible by 3 (the original sequence is
kept as a prefix and only zeros are appended), and when the raw length is
already divisible by 3 the padding is a no-op. -/
theorem padCloud_zero_pads_to_multiple_of_three :
    ∀ (cloud : List Nat),
      (padCloud cloud).length % 3 = 0 ∧
      (padCloud cloud).take cloud.length = cloud ∧
      (padCloud cloud).drop cloud.length = List.replicate (neededPadding3 cloud.length) 0 ∧
      padCloud cloud = (if cloud.length % 3 = 0 then cloud
        else cloud ++ List.replicate (3 - cloud.length % 3) 0) := by
  intro c
  refine ⟨padCloud_length_mod3 c, ?_, ?_, ?_⟩
  · simp [padCloud]
  · simp [padCloud]
  · by_cases h : c.length % 3 = 0
    · simp [h, padCloud_noop c h]
    · have hnp : neededPadding3 c.length = 3 - c.length % 3 := by
        unfold neededPadding3; omega
      simp [padCloud, h, hnp]

/-- C9: the defensive divisibility check of `plot3d_point_clouds` is
unreachable: on every input the function returns the padded-and-reshaped
clouds, never the divisibility error, because the step-1 padding that
precedes the check always makes the length divisible by 3. -/
theorem plot3d_divisibility_error_unreachable :
    ∀ (point_clouds : List (List Nat)) (lidar_poses : List (List PVal)),
      plot3d_point_clouds point_clouds lidar_poses =
        Except.ok (point_clouds.map (fun c => chunks3 (padCloud c))) := by
  intro pcs ps
  induction pcs with
  | nil => rfl
  | cons c rest ih =>
    have h := padCloud_length_mod3 c
    simp [plot3d_point_clouds, h, ih]

/-- C1: for every log (modelled as the two sequence-number-keyed record
maps in arrival order) and integer offset, the synchronizer emits, for each
point-cloud record in arrival order, the cloud paired with the pose at
`seq + offset` when that pose sequence number exists and with the sentinel
pose of 7 not-a-number values otherwise; both outputs have the length of the
point-cloud stream and preserve its order.  The second conjunct checks the
spec's worked example: cloud seqs 10, 20, 30, pose seqs 35, 55, offset 25
yield the pose at 35, the sentinel, and the pose at 55, in that order. -/
theorem sync_emits_pairs_in_arrival_order :
    (∀ (point_cloud_data : List (Int × List Nat))
       (lidar_transform_data : List (Int × List PVal)) (seq_offset : Int),
      (syncPointCloudsAndPoses point_cloud_data lidar_transform_data seq_offset).1.length
          = point_cloud_data.length ∧
      (syncPointCloudsAndPoses point_cloud_data lidar_transform_data seq_offset).2.length
          = point_cloud_data.length ∧
      (syncPointCloudsAndPoses point_cloud_data lidar_transform_data seq_offset).1
          = point_cloud_data.map Prod.snd ∧
      (syncPointCloudsAndPoses point_cloud_data lidar_transform_data seq_offset).2
          = point_cloud_data.map (fun q =>
              (List.lookup (q.1 + seq_offset) lidar_transform_data).getD sentinelPose)) ∧
    syncPointCloudsAndPoses [(10, [1]), (20, [2]), (30, [3])]
        [(35, List.replicate 7 (PVal.num 35)), (55, List.replicate 7 (PVal.num 55))] 25
      = ([[1], [2], [3]],
         [List.replicate 7 (PVal.num 35), sentinelPose, List.replicate 7 (PVal.num 55)]) := by
  constructor
  · intro pcd ltd off
    induction pcd with
    | nil => simp [syncPointCloudsAndPoses]
    | cons q rest ih =>
      obtain ⟨seq, cloud⟩ := q
      obtain ⟨ih1, ih2, ih3, ih4⟩ := ih
      cases h : List.lookup (seq + off) ltd with
      | none => simp [syncPointCloudsAndPoses, h, ih1, ih2, ih3, ih4]
      | some pose => simp [syncPointCloudsAndPoses, h, ih1, ih2, ih3, ih4]
  · rfl

theorem refLength_none_of_no_candidate (point_clouds : List (List (List Nat)))
    (h : ∀ pc ∈ point_clouds, pc.length % 3 ≠ 0) : refLength point_clouds = none := by
  unfold refLength
  have hnil : point_clouds.filter (fun pc => pc.length % 3 == 0) = [] := by
    rw [List.filter_eq_nil_iff]
    intro pc hpc
    simp [h pc hpc]
  rw [hnil]
  rfl

theorem adjustLoop_ok_spec (m : Nat) :
    ∀ (pairs : List (List (List Nat) × List PVal))
      (out : List (List (List Nat)) × List (List (List PVal))),
      adjustLoop m pairs = Except.ok out →
      out.1 = (pairs.filter (fun q => decide (m ≤ q.1.length))).map (fun q => q.1.take m) ∧
      out.2.length = (pairs.filter (fun q => decide (m ≤ q.1.length))).length := by
  intro pairs
  induction pairs with
  | nil =>
    intro out h
    simp only [adjustLoop, Except.ok.injEq] at h
    subst h
    simp
  | cons q rest ih =>
    intro out h
    obtain ⟨pc, pose⟩ := q
    by_cases hle : m ≤ pc.length
    · unfold adjustLoop at h
      rw [if_pos hle] at h
      cases hep : expandPose pose m with
      | error e => rw [hep] at h; simp at h
      | ok ep =>
        rw [hep] at h
        cases hrec : adjustLoop m rest with
        | error e => rw [hrec] at h; simp at h
        | ok r =>
          rw [hrec] at h
          simp only [Except.ok.injEq] at h
          obtain ⟨hr1, hr2⟩ := ih r hrec
          subst h
          simp [List.filter_cons, hle, hr1, hr2]
    · unfold adjustLoop at h
      rw [if_neg hle] at h
      obtain ⟨h1, h2⟩ := ih out h
      simp [List.filter_cons, hle, h1, h2]

/-- C6: every batch the normalizer returns successfully is uniform — the
row count of every output cloud equals the reference minimum length.  The
witness instantiates the spec's example: input row counts 12, 9 and 15 (all
divisible by 3) give reference length 9 and three 9-row outputs. -/
theorem adjust_output_rows_uniform :
    ∀ (point_clouds : List (List (List Nat))) (lidar_poses : List (List PVal))
      (m : Nat) (out : List (List (List Nat)) × List (List (List PVal))),
      refLength point_clouds = some m →
      adjust_point_cloud_lengths point_clouds lidar_poses = Except.ok out →
      out.1.map List.length = List.replicate out.1.length m := by
  intro pcs ps m out hm hok
  unfold adjust_point_cloud_lengths at hok
  rw [hm] at hok
  obtain ⟨h1, _⟩ := adjustLoop_ok_spec m _ out hok
  rw [h1, List.map_map, List.length_map]
  have hconst : ((pcs.zip ps).filter (fun q => decide (m ≤ q.1.length))).map
        (List.length ∘ fun q => q.1.take m)
      = ((pcs.zip ps).filter (fun q => decide (m ≤ q.1.length))).map (fun _ => m) := by
    apply List.map_congr_left
    intro q hq
    have hle : m ≤ q.1.length := of_decide_eq_true ((List.mem_filter.mp hq).2)
    simp [Nat.min_eq_left hle]
  rw [hconst]
  simp

/-- Witness for C6 at the spec's example row counts 12, 9, 15. -/
theorem adjust_output_rows_uniform_witness :
    refLength [List.replicate 12 ([0, 0, 0] : List Nat), List.replicate 9 [0, 0, 0],
        List.replicate 15 [0, 0, 0]] = some 9 ∧
    [List.replicate 9 ([0, 0, 0] : List Nat), List.replicate 9 [0, 0, 0],
        List.replicate 9 [0, 0, 0]].map List.length
      = List.replicate [List.replicate 9 ([0, 0, 0] : List Nat), List.replicate 9 [0, 0, 0],
          List.replicate 9 [0, 0, 0]].length 9 := by
  refine ⟨by decide, ?_⟩
  exact adjust_output_rows_uniform
    [List.replicate 12 ([0, 0, 0] : List Nat), List.replicate 9 [0, 0, 0],
      List.replicate 15 [0, 0, 0]]
    (List.replicate 3 sentinelPose) 9
    ([List.replicate 9 ([0, 0, 0] : List Nat), List.replicate 9 [0, 0, 0],
        List.replicate 9 [0, 0, 0]],
      List.replicate 3 (List.replicate 9 sentinelPose))
    (by decide) (by rfl)

/-- C8: for a 7-value pose, expansion returns `min_length` copies of the
pose (a `(min_length, 7)` array every row of which is the original pose),
and the not-a-number padding branch is never taken because the needed
padding computed from `min_length * 7` elements is zero. -/
theorem expandPose_replicates_pose :
    ∀ (pose : List PVal) (min_length : Nat), pose.length = 7 →
      expandPose pose min_length = Except.ok (List.replicate min_length pose) ∧
      neededPadding7 (min_length * pose.length) = 0 := by
  intro pose m h
  have hmod : (m * pose.length) % 7 = 0 := by rw [h]; exact Nat.mul_mod_left m 7
  have hnp : neededPadding7 (m * pose.length) = 0 := by
    unfold neededPadding7; omega
  refine ⟨?_, hnp⟩
  unfold expandPose
  dsimp only
  rw [hnp]
  simp only [gt_iff_lt, Nat.lt_irrefl, if_false]
  unfold npReshape7
  rw [flatten_replicate_length m pose]
  simp only [hmod, beq_self_eq_true, if_true]
  rw [chunks7_flatten_replicate m pose h]

/-- Witness for C8: the sentinel pose expanded five times. -/
theorem expandPose_replicates_pose_witness :
    expandPose sentinelPose 5 = Except.ok (List.replicate 5 sentinelPose) ∧
      neededPadding7 (5 * sentinelPose.length) = 0 :=
  expandPose_replicates_pose sentinelPose 5 (by decide)

/-- C5 counterexample: on a batch where no cloud qualifies for the
reference-length computation, the normalizer raises the builtin
empty-`min` error, whose message is not the explicit
"no valid reference length" error the claim describes. -/
theorem adjust_empty_min_generic_error :
    adjust_point_cloud_lengths [List.replicate 4 ([0, 0, 0] : List Nat)] [sentinelPose]
        = Except.error "min() arg is an empty sequence" ∧
      "min() arg is an empty sequence" ≠ "no valid reference length" := by
  exact ⟨rfl, by decide⟩

/-- C5 amended: when every cloud fails the candidate condition (row count
not divisible by 3), the normalizer does fail — it neither returns an empty
nor a corrupt batch — but with CPython's generic empty-sequence `ValueError`
from `min`, not with an explicit "no valid reference length" error. -/
theorem adjust_fails_with_builtin_min_error :
    ∀ (point_clouds : List (List (List Nat))) (lidar_poses : List (List PVal)),
      (∀ pc ∈ point_clouds, pc.length % 3 ≠ 0) →
      adjust_point_cloud_lengths point_clouds lidar_poses
        = Except.error "min() arg is an empty sequence" := by
  intro pcs ps h
  unfold adjust_point_cloud_lengths
  rw [refLength_none_of_no_candidate pcs h]

/-- Witness for the amended C5: two clouds of 4 and 2 rows. -/
theorem adjust_fails_with_builtin_min_error_witness :
    adjust_point_cloud_lengths
        [List.replicate 4 ([0, 0, 0] : List Nat), List.replicate 2 [0, 0, 0]]
        (List.replicate 2 sentinelPose)
      = Except.error "min() arg is an empty sequence" :=
  adjust_fails_with_builtin_min_error
    [List.replicate 4 ([0, 0, 0] : List Nat), List.replicate 2 [0, 0, 0]]
    (List.replicate 2 sentinelPose) (by decide)

/-- C3 counterexample: a batch of two clouds with 2 and 9 rows.  The
reference minimum is 9 (the 2-row cloud is not a candidate), the 2-row
cloud is silently dropped by the `len(pc) >= min_length` guard, and the
output has one sample although the input has two. -/
theorem adjust_drops_short_cloud :
    adjust_point_cloud_lengths
        [List.replicate 2 ([0, 0, 0] : List Nat), List.replicate 9 [0, 0, 0]]
        [sentinelPose, sentinelPose]
      = Except.ok ([List.replicate 9 ([0, 0, 0] : List Nat)],
          [List.replicate 9 sentinelPose]) ∧
      [List.replicate 9 ([0, 0, 0] : List Nat)].length
        ≠ [List.replicate 2 ([0, 0, 0] : List Nat), List.replicate 9 [0, 0, 0]].length := by
  exact ⟨rfl, by decide⟩

/-- C3 amended: a successful normalizer output consists of exactly the
input clouds whose row count is at least the reference minimum, each
truncated to that minimum, with one expanded pose per retained cloud;
clouds shorter than the reference minimum are dropped. -/
theorem adjust_emits_one_sample_per_retained_pair :
    ∀ (point_clouds : List (List (List Nat))) (lidar_poses : List (List PVal))
      (m : Nat) (out : List (List (List Nat)) × List (List (List PVal))),
      refLength point_clouds = some m →
      adjust_point_cloud_lengths point_clouds lidar_poses = Except.ok out →
      out.1 = ((point_clouds.zip lidar_poses).filter
          (fun q => decide (m ≤ q.1.length))).map (fun q => q.1.take m) ∧
      out.2.length = out.1.length := by
  intro pcs ps m out hm hok
  unfold adjust_point_cloud_lengths at hok
  rw [hm] at hok
  obtain ⟨h1, h2⟩ := adjustLoop_ok_spec m _ out hok
  refine ⟨h1, ?_⟩
  rw [h1, List.length_map, h2]

/-- Witness for the amended C3: one 3-row cloud, retained and truncated. -/
theorem adjust_emits_one_sample_per_retained_pair_witness :
    ([List.replicate 3 ([0, 0, 0] : List Nat)], [List.replicate 3 sentinelPose]).1
      = (([List.replicate 3 ([0, 0, 0] : List Nat)].zip [sentinelPose]).filter
          (fun q => decide (3 ≤ q.1.length))).map (fun q => q.1.take 3) ∧
    ([List.replicate 3 ([0, 0, 0] : List Nat)], [List.replicate 3 sentinelPose]).2.length
      = ([List.replicate 3 ([0, 0, 0] : List Nat)], [List.replicate 3 sentinelPose]).1.length :=
  adjust_emits_one_sample_per_retained_pair
    [List.replicate 3 ([0, 0, 0] : List Nat)] [sentinelPose] 3
    ([List.replicate 3 ([0, 0, 0] : List Nat)], [List.replicate 3 sentinelPose])
    (by decide) (by rfl)

/-- C2 counterexample: raw clouds of 12 and 27 bytes.  Both raw lengths are
divisible by 3, so the claimed rule gives the minimum row count 4 (= 12/3);
the code instead filters the reshaped clouds on their ROW count being
divisible by 3, keeping only the 9-row cloud, and returns 9. -/
theorem refLength_raw_divisibility_mismatch :
    specRefLength [List.replicate 12 (0 : Nat), List.replicate 27 0] = some 4 ∧
    pipelineRefLength [List.replicate 12 (0 : Nat), List.replicate 27 0] = some 9 ∧
    (some 4 : Option Nat) ≠ some 9 := by
  exact ⟨by decide, by decide, by decide⟩

/-- C2 amended: the reference minimum used by the normalizer is the minimum
row count over the clouds whose post-padding row count (the ceiling of the
raw length over 3) is divisible by 3; whether a cloud needed padding in
step 1 is irrelevant to the candidate condition. -/
theorem pipelineRefLength_filters_on_row_count :
    ∀ (raw_clouds : List (List Nat)),
      pipelineRefLength raw_clouds =
        pyMin ((raw_clouds.map (fun c => (c.length + 2) / 3)).filter
          (fun n => n % 3 == 0)) := by
  intro raws
  unfold pipelineRefLength refLength
  congr 1
  induction raws with
  | nil => rfl
  | cons c cs ih =>
    simp only [List.map_cons, List.filter_cons, chunks3_padCloud_length c]
    by_cases hc : (((c.length + 2) / 3) % 3 == 0) = true
    · rw [if_pos hc, if_pos hc]
      simp only [List.map_cons, chunks3_padCloud_length c, ih]
    · rw [if_neg hc, if_neg hc]
      exact ih

theorem flatten_replicate_replicate {α : Type _} (k n : Nat) (a : α) :
    (List.replicate k (List.replicate n a)).flatten = List.replicate (k * n) a := by
  induction k with
  | zero => simp
  | succ k ih =>
    rw [List.replicate_succ, List.flatten_cons, ih, ← List.replicate_add]
    congr 1
    ring

theorem expandLabel_ok_elements :
    ∀ (label : String) (m : Nat) (ep : List (List String)),
      expandLabel label m = Except.ok ep →
      ∀ r ∈ ep, ∀ s ∈ r, s = label := by
  intro label m ep h
  unfold expandLabel at h
  dsimp only at h
  by_cases hp : neededPadding7 (List.replicate m label).length > 0
  · rw [if_pos hp] at h
    simp at h
  · rw [if_neg hp] at h
    have hm : m % 7 = 0 := by
      simp only [List.length_replicate] at hp
      unfold neededPadding7 at hp
      omega
    have hcond : ((List.replicate m label).length % 7 == 0) = true := by
      simp [hm]
    rw [if_pos hcond] at h
    simp only [Except.ok.injEq] at h
    subst h
    intro r hr s hs
    have hrep : List.replicate m label
        = (List.replicate (m / 7) (List.replicate 7 label)).flatten := by
      rw [flatten_replicate_replicate]
      congr 1
      omega
    rw [hrep, chunks7_flatten_replicate _ _ (by simp)] at hr
    have hr7 : r = List.replicate 7 label := List.eq_of_mem_replicate hr
    subst hr7
    exact List.eq_of_mem_replicate hs

theorem adjustLoopOnColumns_ok_spec (m : Nat) :
    ∀ (pairs : List (List (List Nat) × String))
      (out : List (List (List Nat)) × List (List (List String))),
      adjustLoopOnColumns m pairs = Except.ok out →
      out.1.length ≤ pairs.length ∧ out.2.length ≤ pairs.length ∧
      ∀ ep ∈ out.2, ∃ q, q ∈ pairs ∧ expandLabel q.2 m = Except.ok ep := by
  intro pairs
  induction pairs with
  | nil =>
    intro out h
    simp only [adjustLoopOnColumns, Except.ok.injEq] at h
    subst h
    simp
  | cons q rest ih =>
    intro out h
    obtain ⟨pc, label⟩ := q
    by_cases hle : m ≤ pc.length
    · unfold adjustLoopOnColumns at h
      rw [if_pos hle] at h
      cases hep : expandLabel label m with
      | error e => rw [hep] at h; simp at h
      | ok ep =>
        rw [hep] at h
        cases hrec : adjustLoopOnColumns m rest with
        | error e => rw [hrec] at h; simp at h
        | ok r =>
          rw [hrec] at h
          simp only [Except.ok.injEq] at h
          obtain ⟨h1, h2, h3⟩ := ih r hrec
          subst h
          refine ⟨by simpa using Nat.succ_le_succ h1, by simpa using Nat.succ_le_succ h2, ?_⟩
          intro e he
          rcases List.mem_cons.mp he with he | he
          · exact ⟨(pc, label), List.mem_cons_self _ _, by rw [← he] at hep; exact hep⟩
          · obtain ⟨q, hq, hexp⟩ := h3 e he
            exact ⟨q, List.mem_cons_of_mem _ hq, hexp⟩
    · unfold adjustLoopOnColumns at h
      rw [if_neg hle] at h
      obtain ⟨h1, h2, h3⟩ := ih out h
      refine ⟨Nat.le_succ_of_le h1, Nat.le_succ_of_le h2, ?_⟩
      intro e he
      obtain ⟨q, hq, hexp⟩ := h3 e he
      exact ⟨q, List.mem_cons_of_mem _ hq, hexp⟩

/-- C4: when the synchronizer output holds more than 7 point clouds,
zipping the clouds against the returned pose `DataFrame` pairs them with
its 7 column labels, so at most 7 samples can come out of
`adjust_point_cloud_lengths`, and every string stored in an emitted
"expanded pose" is one of the column labels (such as "pos_x"), never a
7-value pose row. -/
theorem adjust_on_dataframe_pairs_column_labels :
    ∀ (point_clouds : List (List (List Nat))) (pose_rows : List (List PVal)),
      7 < point_clouds.length →
      (point_clouds.zip (dfIter (pdDataFramePoses pose_rows))).length ≤ 7 ∧
      ∀ out, adjust_point_cloud_lengths_df point_clouds (pdDataFramePoses pose_rows)
          = Except.ok out →
        out.1.length ≤ 7 ∧ out.2.length ≤ 7 ∧
        ∀ ep ∈ out.2, ∀ r ∈ ep, ∀ s ∈ r, s ∈ poseColumns := by
  intro pcs rows _
  have hcols : dfIter (pdDataFramePoses rows) = poseColumns := rfl
  have hzip : (pcs.zip (dfIter (pdDataFramePoses rows))).length ≤ 7 := by
    rw [List.length_zip, hcols]
    exact Nat.min_le_right _ _
  refine ⟨hzip, ?_⟩
  intro out hok
  unfold adjust_point_cloud_lengths_df at hok
  cases hm : refLength pcs with
  | none => rw [hm] at hok; simp at hok
  | some m =>
    rw [hm] at hok
    obtain ⟨h1, h2, h3⟩ := adjustLoopOnColumns_ok_spec m _ out hok
    refine ⟨le_trans h1 hzip, le_trans h2 hzip, ?_⟩
    intro ep hep r hr s hs
    obtain ⟨q, hq, hexp⟩ := h3 ep hep
    have hs2 : s = q.2 := expandLabel_ok_elements q.2 m ep hexp r hr s hs
    obtain ⟨qc, ql⟩ := q
    have hmem : ql ∈ dfIter (pdDataFramePoses rows) := (List.of_mem_zip hq).2
    rw [hs2]
    rw [hcols] at hmem
    exact hmem

/-- Witness for C4: eight 21-row clouds against the pose table — the zip
yields 7 pairs and the adjusted output has 7 samples. -/
theorem adjust_on_dataframe_pairs_column_labels_witness :
    ((List.replicate 8 (List.replicate 21 ([0, 0, 0] : List Nat))).zip
        (dfIter (pdDataFramePoses []))).length ≤ 7 ∧
    (List.replicate 7 (List.replicate 21 ([0, 0, 0] : List Nat))).length ≤ 7 ∧
    (poseColumns.map (fun lab => List.replicate 3 (List.replicate 7 lab))).length ≤ 7 := by
  have h := adjust_on_dataframe_pairs_column_labels
    (List.replicate 8 (List.replicate 21 ([0, 0, 0] : List Nat))) [] (by decide)
  have h2 := h.2 (List.replicate 7 (List.replicate 21 ([0, 0, 0] : List Nat)),
    poseColumns.map (fun lab => List.replicate 3 (List.replicate 7 lab))) (by rfl)
  exact ⟨h.1, h2.1, h2.2.1⟩

theorem zipWith_append_rows_ten {α : Type _} :
    ∀ (a b : List (List α)), (∀ r ∈ a, r.length = 3) → (∀ r ∈ b, r.length = 7) →
      ∀ row ∈ List.zipWith (fun r s => r ++ s) a b, row.length = 10 := by
  intro a
  induction a with
  | nil => intro b _ _ row hrow; simp at hrow
  | cons r a ih =>
    intro b h3 h7 row hrow
    cases b with
    | nil => simp at hrow
    | cons s b =>
      rw [List.zipWith_cons_cons] at hrow
      rcases List.mem_cons.mp hrow with h | h
      · rw [h, List.length_append, h3 r (List.mem_cons_self _ _),
          h7 s (List.mem_cons_self _ _)]
      · exact ih b (fun x hx => h3 x (List.mem_cons_of_mem _ hx))
          (fun x hx => h7 x (List.mem_cons_of_mem _ hx)) row h

/-- C10: when every cloud is an `(N, 3)` array and its expanded pose the
matching `(N, 7)` array, the flattened training table built by
`prepare_data_for_training` stacks one row per point over all samples
(its row count is the sum of the per-sample row counts) and every row has
exactly 10 = 3 + 7 columns. -/
theorem prepare_data_shape :
    ∀ (point_clouds lidar_poses : List (List (List PVal))),
      List.Forall₂ (fun pc lp => pc.length = lp.length ∧
          (∀ r ∈ pc, r.length = 3) ∧ (∀ r ∈ lp, r.length = 7))
        point_clouds lidar_poses →
      (prepare_data_for_training point_clouds lidar_poses).length
          = (point_clouds.map List.length).sum ∧
      ∀ row ∈ prepare_data_for_training point_clouds lidar_poses, row.length = 10 := by
  intro pcs ps hf
  induction hf with
  | nil => exact ⟨rfl, by intro row hrow; simp [prepare_data_for_training] at hrow⟩
  | @cons pc lp pcs ps h hf ih =>
    obtain ⟨hlen, h3, h7⟩ := h
    obtain ⟨ih1, ih2⟩ := ih
    have hre : reshape3 pc = pc := chunks3_flatten_of_rows3 pc h3
    have hblock : npConcatColumns (reshape3 pc) lp = List.zipWith (fun r s => r ++ s) pc lp := by
      rw [npConcatColumns, hre]
    have hcons : prepare_data_for_training (pc :: pcs) (lp :: ps)
        = List.zipWith (fun r s => r ++ s) pc lp ++ prepare_data_for_training pcs ps := by
      simp only [prepare_data_for_training, List.zip_cons_cons, List.map_cons,
        List.flatten_cons, hblock]
    constructor
    · rw [hcons, List.length_append, ih1, List.length_zipWith, hlen, Nat.min_self,
        List.map_cons, List.sum_cons, hlen]
    · intro row hrow
      rw [hcons] at hrow
      rcases List.mem_append.mp hrow with h | h
      · exact zipWith_append_rows_ten pc lp h3 h7 row h
      · exact ih2 row h

/-- Witness for C10: one sample of two points. -/
theorem prepare_data_shape_witness :
    (prepare_data_for_training
        [[List.replicate 3 PVal.nan, List.replicate 3 PVal.nan]]
        [[sentinelPose, sentinelPose]]).length = 2 := by
  have h := prepare_data_shape
    [[List.replicate 3 PVal.nan, List.replicate 3 PVal.nan]]
    [[sentinelPose, sentinelPose]]
    (List.Forall₂.cons ⟨by decide, by decide, by decide⟩ List.Forall₂.nil)
  rw [h.1]
  decide
